import Mathlib

/-!
Shallow embedding of `src/libsuitetecsa/api.py` (suitetecsa-sdk-python).

The file models the two façade classes `UserPortalClient` and `NautaClient`.
Each Python method becomes a Lean function from the client state (and an
oracle structure standing for the external protocol module) to a triple
`(Except PyErr result) × new client state × list of observable events`.
Exceptions are modelled by `Except`; the event trace records every call into
the external protocol module (with the session argument that was passed),
every `save()` and every `dispose()` of a session object, so that theorems
can speak about persistence, disposal and call order.
-/

/-- Python exceptions relevant to this layer: `RequestException` (transport),
the domain `LogoutException` (carrying its message), `AttributeError`
(attribute access on `None`), and other protocol-raised domain errors. -/
inductive PyErr where
  | requestException : PyErr
  | logoutException : String → PyErr
  | attributeError : PyErr
  | domainError : String → PyErr
deriving DecidableEq, Repr

/-- Name tag of the protocol call `create_session`. -/
def opCreate : String := "create_session"

/-- Name tag of the protocol call `get_captcha`. -/
def opGetCaptcha : String := "get_captcha"

/-- Name tag of the protocol call `login`. -/
def opLogin : String := "login"

/-- Name tag of the protocol call `recharge`. -/
def opRecharge : String := "recharge"

/-- Name tag of the protocol call `transfer`. -/
def opTransfer : String := "transfer"

/-- Name tag of the protocol call `get_user_info`. -/
def opGetUserInfo : String := "get_user_info"

/-- Name tag of the protocol call `change_password`. -/
def opChangePassword : String := "change_password"

/-- Name tag of the protocol call `change_email_password`. -/
def opChangeEmailPassword : String := "change_email_password"

/-- Name tag of the protocol call `get_lasts`. -/
def opGetLasts : String := "get_lasts"

/-- Name tag of the protocol call `get_connections`. -/
def opGetConnections : String := "get_connections"

/-- Name tag of the protocol call `get_recharges`. -/
def opGetRecharges : String := "get_recharges"

/-- Name tag of the protocol call `get_transfers`. -/
def opGetTransfers : String := "get_transfers"

/-- Name tag of the protocol call `get_user_credit`. -/
def opGetCredit : String := "get_user_credit"

/-- Name tag of the protocol call `get_user_time`. -/
def opGetTime : String := "get_user_time"

/-- Name tag of the protocol call `logout`. -/
def opLogout : String := "logout"

/-- Modelled from the spec: the user-portal session entity (the class lives in
`libsuitetecsa.core.session`, outside this excerpt). Per spec section 3 it is a
bag of cookies/tokens plus the account attributes `block_date`, `delete_date`,
`account_type`, `service_type`, `credit`, `time`, `mail_account`; its
constructor sets every attribute (absent values are `None`). -/
structure UPSession where
  tokens : Option String := none
  block_date : Option String := none
  delete_date : Option String := none
  account_type : Option String := none
  service_type : Option String := none
  credit : Option String := none
  time : Option String := none
  mail_account : Option String := none
deriving DecidableEq, Repr

/-- Embedding of `self.session.__dict__.update(r.__dict__)`: Python
`dict.update` overwrites every key present in `r.__dict__`, and the external
session class sets every attribute in its constructor, so every field of `s`
is overwritten by the corresponding field of `r`. -/
def UPSession.dictUpdate (s r : UPSession) : UPSession :=
  { s with
    tokens := r.tokens
    block_date := r.block_date
    delete_date := r.delete_date
    account_type := r.account_type
    service_type := r.service_type
    credit := r.credit
    time := r.time
    mail_account := r.mail_account }

/-- Observable events of a `UserPortalClient` run: a protocol-module call
(with the session argument passed to it) or a `save()` on a session. -/
inductive UPEvent where
  | saved : UPSession → UPEvent
  | protoCall : String → Option UPSession → UPEvent
deriving DecidableEq, Repr

/-- State of a `UserPortalClient` instance: the constructor stores `username`,
`password` (both default `None`) and sets `self.session = None`. -/
structure UserPortalClient where
  username : Option String
  password : Option String
  session : Option UPSession
deriving DecidableEq, Repr

/-- Oracle for the external protocol module `UserPortal`
(`libsuitetecsa.core.protocol`, outside this excerpt; signatures from spec
section 6). Each field is the deterministic outcome of the corresponding
call; an `Except.error` outcome models the call raising. The session
argument is `Option` because the façade passes `self.session` as-is. -/
structure UPProto where
  create_session : Except PyErr UPSession
  get_captcha : Option UPSession → Except PyErr (List Nat)
  login : Option UPSession → Option String → Option String → String → Except PyErr UPSession
  recharge : Option UPSession → String → Except PyErr Unit
  transfer : Option UPSession → String → String → Option String → Except PyErr Unit
  get_user_info : Option UPSession → Except PyErr UPSession
  change_password : Option UPSession → Option String → String → Except PyErr Unit
  change_email_password : Option UPSession → Option String → String → Except PyErr Unit
  get_lasts : Option UPSession → String → Nat → Except PyErr (List String)
  get_connections : Option UPSession → Int → Int → Except PyErr (List String)
  get_recharges : Option UPSession → Int → Int → Except PyErr (List String)
  get_transfers : Option UPSession → Int → Int → Except PyErr (List String)

/-- `UserPortalClient.init_session`: `self.session = UserPortal.create_session()`
then `self.session.save()`. -/
def UserPortalClient.init_session (p : UPProto) (c : UserPortalClient) :
    Except PyErr Unit × UserPortalClient × List UPEvent :=
  match p.create_session with
  | Except.error e => (Except.error e, c, [UPEvent.protoCall opCreate none])
  | Except.ok s =>
      (Except.ok (), { c with session := some s },
       [UPEvent.protoCall opCreate none, UPEvent.saved s])

/-- `UserPortalClient.captcha_as_bytes`: `if not self.session: self.init_session()`
then `return UserPortal.get_captcha(self.session)`. -/
def UserPortalClient.captcha_as_bytes (p : UPProto) (c : UserPortalClient) :
    Except PyErr (List Nat) × UserPortalClient × List UPEvent :=
  match c.session with
  | none =>
      match UserPortalClient.init_session p c with
      | (Except.error e, c1, ev) => (Except.error e, c1, ev)
      | (Except.ok _, c1, ev) =>
          (p.get_captcha c1.session, c1, ev ++ [UPEvent.protoCall opGetCaptcha c1.session])
  | some s =>
      (p.get_captcha (some s), c, [UPEvent.protoCall opGetCaptcha (some s)])

/-- Body of `UserPortalClient.login` after the session guard:
`self.session.__dict__.update(UserPortal.login(self.session, self.username,
self.password, captcha_code).__dict__)` then `self.session.save()` then
`return self`. Python resolves `self.session.__dict__` before evaluating the
argument, so a `None` session raises `AttributeError` before the protocol
call; here the session is always present when this body runs. -/
def UserPortalClient.loginBody (p : UPProto) (captcha_code : String)
    (c : UserPortalClient) (ev : List UPEvent) :
    Except PyErr UserPortalClient × UserPortalClient × List UPEvent :=
  match c.session with
  | none => (Except.error PyErr.attributeError, c, ev)
  | some s =>
      match p.login (some s) c.username c.password captcha_code with
      | Except.error e => (Except.error e, c, ev ++ [UPEvent.protoCall opLogin (some s)])
      | Except.ok r =>
          (Except.ok { c with session := some (UPSession.dictUpdate s r) },
           { c with session := some (UPSession.dictUpdate s r) },
           ev ++ [UPEvent.protoCall opLogin (some s),
                  UPEvent.saved (UPSession.dictUpdate s r)])

/-- `UserPortalClient.login`: `if not self.session: self.init_session()`,
then the login body. -/
def UserPortalClient.login (p : UPProto) (captcha_code : String)
    (c : UserPortalClient) :
    Except PyErr UserPortalClient × UserPortalClient × List UPEvent :=
  match c.session with
  | none =>
      match UserPortalClient.init_session p c with
      | (Except.error e, c1, ev) => (Except.error e, c1, ev)
      | (Except.ok _, c1, ev) => UserPortalClient.loginBody p captcha_code c1 ev
  | some _ => UserPortalClient.loginBody p captcha_code c []

/-- `UserPortalClient.recharge`: `UserPortal.recharge(self.session,
recharge_code)` (no session guard — `self.session` is passed as-is), then
`self.session.__dict__.update(UserPortal.get_user_info(self.session).__dict__)`
(on a `None` session, `self.session.__dict__` raises `AttributeError` before
`get_user_info` is called), then `self.session.save()`. -/
def UserPortalClient.recharge (p : UPProto) (recharge_code : String)
    (c : UserPortalClient) :
    Except PyErr Unit × UserPortalClient × List UPEvent :=
  match p.recharge c.session recharge_code with
  | Except.error e => (Except.error e, c, [UPEvent.protoCall opRecharge c.session])
  | Except.ok _ =>
      match c.session with
      | none => (Except.error PyErr.attributeError, c, [UPEvent.protoCall opRecharge none])
      | some s =>
          match p.get_user_info (some s) with
          | Except.error e =>
              (Except.error e, c,
               [UPEvent.protoCall opRecharge (some s),
                UPEvent.protoCall opGetUserInfo (some s)])
          | Except.ok info =>
              (Except.ok (), { c with session := some (UPSession.dictUpdate s info) },
               [UPEvent.protoCall opRecharge (some s),
                UPEvent.protoCall opGetUserInfo (some s),
                UPEvent.saved (UPSession.dictUpdate s info)])

/-- `UserPortalClient.transfer`: `UserPortal.transfer(self.session,
mount_to_transfer, account_to_transfer, self.password)` (no session guard),
then the same refetch-merge-save sequence as `recharge`. -/
def UserPortalClient.transfer (p : UPProto)
    (mount_to_transfer account_to_transfer : String) (c : UserPortalClient) :
    Except PyErr Unit × UserPortalClient × List UPEvent :=
  match p.transfer c.session mount_to_transfer account_to_transfer c.password with
  | Except.error e => (Except.error e, c, [UPEvent.protoCall opTransfer c.session])
  | Except.ok _ =>
      match c.session with
      | none => (Except.error PyErr.attributeError, c, [UPEvent.protoCall opTransfer none])
      | some s =>
          match p.get_user_info (some s) with
          | Except.error e =>
              (Except.error e, c,
               [UPEvent.protoCall opTransfer (some s),
                UPEvent.protoCall opGetUserInfo (some s)])
          | Except.ok info =>
              (Except.ok (), { c with session := some (UPSession.dictUpdate s info) },
               [UPEvent.protoCall opTransfer (some s),
                UPEvent.protoCall opGetUserInfo (some s),
                UPEvent.saved (UPSession.dictUpdate s info)])

/-- `UserPortalClient.change_password`: a single protocol call with
`self.session` passed as-is; no session guard, no refetch, no save. -/
def UserPortalClient.change_password (p : UPProto) (new_passwrd : String)
    (c : UserPortalClient) :
    Except PyErr Unit × UserPortalClient × List UPEvent :=
  (p.change_password c.session c.password new_passwrd, c,
   [UPEvent.protoCall opChangePassword c.session])

/-- `UserPortalClient.change_email_password`: a single protocol call with
`self.session` passed as-is; no session guard, no refetch, no save. -/
def UserPortalClient.change_email_password (p : UPProto) (new_passwrd : String)
    (c : UserPortalClient) :
    Except PyErr Unit × UserPortalClient × List UPEvent :=
  (p.change_email_password c.session c.password new_passwrd, c,
   [UPEvent.protoCall opChangeEmailPassword c.session])

/-- `UserPortalClient.get_lasts`: delegates to the protocol module with
`self.session` passed as-is; no session guard. -/
def UserPortalClient.get_lasts (p : UPProto) (action : String) (large : Nat)
    (c : UserPortalClient) :
    Except PyErr (List String) × UserPortalClient × List UPEvent :=
  (p.get_lasts c.session action large, c, [UPEvent.protoCall opGetLasts c.session])

/-- `UserPortalClient.get_connections`: delegates to the protocol module with
`self.session` passed as-is; no session guard. -/
def UserPortalClient.get_connections (p : UPProto) (year month : Int)
    (c : UserPortalClient) :
    Except PyErr (List String) × UserPortalClient × List UPEvent :=
  (p.get_connections c.session year month, c, [UPEvent.protoCall opGetConnections c.session])

/-- `UserPortalClient.get_recharges`: delegates to the protocol module with
`self.session` passed as-is; no session guard. -/
def UserPortalClient.get_recharges (p : UPProto) (year month : Int)
    (c : UserPortalClient) :
    Except PyErr (List String) × UserPortalClient × List UPEvent :=
  (p.get_recharges c.session year month, c, [UPEvent.protoCall opGetRecharges c.session])

/-- `UserPortalClient.get_transfers`: delegates to the protocol module with
`self.session` passed as-is; no session guard. -/
def UserPortalClient.get_transfers (p : UPProto) (year month : Int)
    (c : UserPortalClient) :
    Except PyErr (List String) × UserPortalClient × List UPEvent :=
  (p.get_transfers c.session year month, c, [UPEvent.protoCall opGetTransfers c.session])

/-- `UserPortalClient.__enter__`: body is `pass`, so it returns `None` and
touches nothing. -/
def UserPortalClient.enterHook (c : UserPortalClient) :
    Option UserPortalClient × UserPortalClient × List UPEvent :=
  (none, c, [])

/-- `UserPortalClient.__exit__`: body is `pass`, so it returns normally and
touches nothing. -/
def UserPortalClient.exitHook (c : UserPortalClient) :
    Except PyErr Unit × UserPortalClient × List UPEvent :=
  (Except.ok (), c, [])

/-- `UserPortalClient.block_date`:
`return self.session.block_date if self.session else None`. -/
def UserPortalClient.block_date (c : UserPortalClient) : Option String :=
  match c.session with
  | some s => s.block_date
  | none => none

/-- `UserPortalClient.delete_date`:
`return self.session.delete_date if self.session else None`. -/
def UserPortalClient.delete_date (c : UserPortalClient) : Option String :=
  match c.session with
  | some s => s.delete_date
  | none => none

/-- `UserPortalClient.account_type`:
`return self.session.account_type if self.session else None`. -/
def UserPortalClient.account_type (c : UserPortalClient) : Option String :=
  match c.session with
  | some s => s.account_type
  | none => none

/-- `UserPortalClient.service_type`:
`return self.session.service_type if self.session else None`. -/
def UserPortalClient.service_type (c : UserPortalClient) : Option String :=
  match c.session with
  | some s => s.service_type
  | none => none

/-- `UserPortalClient.credit`:
`return self.session.credit if self.session else None`. -/
def UserPortalClient.credit (c : UserPortalClient) : Option String :=
  match c.session with
  | some s => s.credit
  | none => none

/-- `UserPortalClient.time`:
`return self.session.time if self.session else None`. -/
def UserPortalClient.time (c : UserPortalClient) : Option String :=
  match c.session with
  | some s => s.time
  | none => none

/-- `UserPortalClient.mail_account`:
`return self.session.mail_account if self.session else None`. -/
def UserPortalClient.mail_account (c : UserPortalClient) : Option String :=
  match c.session with
  | some s => s.mail_account
  | none => none

/-- Modelled from the spec: the network session entity `NautaSession`
(`libsuitetecsa.core.session`, outside this excerpt). Per spec section 3 it
holds cookies/tokens and an `attribute_uuid` for network sessions; its bare
constructor leaves them unset. -/
structure NautaSession where
  tokens : Option String := none
  attribute_uuid : Option String := none
deriving DecidableEq, Repr

/-- Modelled from the spec: direct bare construction `NautaSession()` — the
default constructor of the external session class, every attribute unset. -/
def NautaSession.new : NautaSession := {}

/-- Observable events of a `NautaClient` run: a protocol-module call (with
the session argument passed to it), a `save()` or a `dispose()`. -/
inductive NEvent where
  | saved : NautaSession → NEvent
  | disposed : NautaSession → NEvent
  | protoCall : String → Option NautaSession → NEvent
deriving DecidableEq, Repr

/-- State of a `NautaClient` instance: the constructor stores `user`,
`password` (both default `None`) and sets `self.session = None`. -/
structure NautaClient where
  user : Option String
  password : Option String
  session : Option NautaSession
deriving DecidableEq, Repr

/-- Oracle for the external protocol module `Nauta`
(`libsuitetecsa.core.protocol`, outside this excerpt; signatures from spec
section 6). An `Except.error` outcome models the call raising; the session
argument is `Option` because the façade passes `self.session` as-is. -/
structure NautaProto where
  create_session : Except PyErr NautaSession
  login : Option NautaSession → Option String → Option String → Except PyErr String
  get_user_credit : Option NautaSession → Option String → Option String → Except PyErr String
  get_user_time : Option NautaSession → Option String → Except PyErr String
  logout : Option NautaSession → Option String → Except PyErr Unit

/-- Modelled from the spec: `__about__.__name__`, the program name used in
the logout error message (the `__about__` module is outside this excerpt). -/
def prog_name : String := "libsuitetecsa"

/-- Message of the `LogoutException` raised by `NautaClient.logout`, with
`prog_name` substituted for the format placeholder. -/
def logout_message : String :=
  "Hay problemas en la red y no se puede cerrar la session.\n" ++
  "Es posible que ya este desconectado. Intente con \x27" ++ prog_name ++
  " down\x27 dentro de unos minutos"

/-- Semantics of the `finally` block shared by `NautaClient.user_credit` and
`NautaClient.remaining_time`: `if self.session and dispose_session:
self.session.dispose(); self.session = None`, applied to the outcome of the
`try` body (the body result propagates whether it returned or raised). -/
def finallyDispose {α : Type}
    (r : Except PyErr α × NautaClient × List NEvent) (dispose_session : Bool) :
    Except PyErr α × NautaClient × List NEvent :=
  match r with
  | (res, c, ev) =>
      match c.session, dispose_session with
      | some s, true => (res, { c with session := none }, ev ++ [NEvent.disposed s])
      | _, _ => (res, c, ev)

/-- `NautaClient.init_session`: `self.session = Nauta.create_session()` then
`self.session.save()`. -/
def NautaClient.init_session (p : NautaProto) (c : NautaClient) :
    Except PyErr Unit × NautaClient × List NEvent :=
  match p.create_session with
  | Except.error e => (Except.error e, c, [NEvent.protoCall opCreate none])
  | Except.ok s =>
      (Except.ok (), { c with session := some s },
       [NEvent.protoCall opCreate none, NEvent.saved s])

/-- Body of `NautaClient.login` after the session guard:
`self.session.attribute_uuid = Nauta.login(self.session, self.user,
self.password)` (the right-hand side is evaluated first, so a raising login
propagates before any session mutation), then `self.session.save()`, then
`return self`. -/
def NautaClient.loginBody (p : NautaProto) (c : NautaClient) (ev : List NEvent) :
    Except PyErr NautaClient × NautaClient × List NEvent :=
  match p.login c.session c.user c.password with
  | Except.error e => (Except.error e, c, ev ++ [NEvent.protoCall opLogin c.session])
  | Except.ok uuid =>
      match c.session with
      | none => (Except.error PyErr.attributeError, c, ev ++ [NEvent.protoCall opLogin none])
      | some s =>
          (Except.ok { c with session := some { s with attribute_uuid := some uuid } },
           { c with session := some { s with attribute_uuid := some uuid } },
           ev ++ [NEvent.protoCall opLogin (some s),
                  NEvent.saved { s with attribute_uuid := some uuid }])

/-- `NautaClient.login`: `if not self.session: self.init_session()`, then the
login body. -/
def NautaClient.login (p : NautaProto) (c : NautaClient) :
    Except PyErr NautaClient × NautaClient × List NEvent :=
  match c.session with
  | none =>
      match NautaClient.init_session p c with
      | (Except.error e, c1, ev) => (Except.error e, c1, ev)
      | (Except.ok _, c1, ev) => NautaClient.loginBody p c1 ev
  | some _ => NautaClient.loginBody p c []

/-- `NautaClient.user_credit`: `dispose_session = False`; in the `try` body,
if there is no session `dispose_session = True; self.init_session()`, then
`return Nauta.get_user_credit(session=self.session, username=self.user,
password=self.password)`; the `finally` block disposes the session created
here and resets `self.session` to `None`. -/
def NautaClient.user_credit (p : NautaProto) (c : NautaClient) :
    Except PyErr String × NautaClient × List NEvent :=
  finallyDispose
    (match c.session with
     | none =>
         match NautaClient.init_session p c with
         | (Except.error e, c1, ev) => (Except.error e, c1, ev)
         | (Except.ok _, c1, ev) =>
             (p.get_user_credit c1.session c.user c.password, c1,
              ev ++ [NEvent.protoCall opGetCredit c1.session])
     | some s =>
         (p.get_user_credit (some s) c.user c.password, c,
          [NEvent.protoCall opGetCredit (some s)]))
    c.session.isNone

/-- `NautaClient.remaining_time`: same `try`/`finally` shape as
`user_credit`, but the ephemeral session is created by direct construction
`self.session = NautaSession()` — no factory call and no `save()` — and the
body returns `Nauta.get_user_time(session=self.session, username=self.user)`. -/
def NautaClient.remaining_time (p : NautaProto) (c : NautaClient) :
    Except PyErr String × NautaClient × List NEvent :=
  finallyDispose
    (match c.session with
     | none =>
         (p.get_user_time (some NautaSession.new) c.user,
          { c with session := some NautaSession.new },
          [NEvent.protoCall opGetTime (some NautaSession.new)])
     | some s =>
         (p.get_user_time (some s) c.user, c,
          [NEvent.protoCall opGetTime (some s)]))
    c.session.isNone

/-- `NautaClient.logout`: in a `try` block, `Nauta.logout(session=self.session,
username=self.user)` then `self.session.dispose()` then `self.session = None`;
`except RequestException` raises `LogoutException` with the remediation
message. A `None` session makes `self.session.dispose()` raise
`AttributeError`, which is not a `RequestException` and so propagates. -/
def NautaClient.logout (p : NautaProto) (c : NautaClient) :
    Except PyErr Unit × NautaClient × List NEvent :=
  match p.logout c.session c.user with
  | Except.error PyErr.requestException =>
      (Except.error (PyErr.logoutException logout_message), c,
       [NEvent.protoCall opLogout c.session])
  | Except.error e =>
      (Except.error e, c, [NEvent.protoCall opLogout c.session])
  | Except.ok _ =>
      match c.session with
      | none =>
          (Except.error PyErr.attributeError, c, [NEvent.protoCall opLogout none])
      | some s =>
          (Except.ok (), { c with session := none },
           [NEvent.protoCall opLogout (some s), NEvent.disposed s])

/-- `NautaClient.__enter__`: body is `pass`, so it returns `None` and touches
nothing. -/
def NautaClient.enterHook (c : NautaClient) :
    Option NautaClient × NautaClient × List NEvent :=
  (none, c, [])

/-- `NautaClient.__exit__`: body is `self.logout()`, unconditionally. -/
def NautaClient.exitHook (p : NautaProto) (c : NautaClient) :
    Except PyErr Unit × NautaClient × List NEvent :=
  NautaClient.logout p c

/-- Spec property used by claim C3: after a successful mutating call through
`mutOp`, the façade refetched full user info for the session, merged it in,
persisted, and the session credit now agrees with what a subsequent
`get_user_info` on the post-call session returns. -/
def refreshAfterMutate (p : UPProto) (mutOp : String) (c d : UserPortalClient)
    (tr : List UPEvent) : Prop :=
  ∃ s info, c.session = some s ∧
    p.get_user_info (some s) = Except.ok info ∧
    d.session = some (UPSession.dictUpdate s info) ∧
    tr = [UPEvent.protoCall mutOp (some s), UPEvent.protoCall opGetUserInfo (some s),
          UPEvent.saved (UPSession.dictUpdate s info)] ∧
    p.get_user_info d.session = Except.ok info ∧
    (UPSession.dictUpdate s info).credit = info.credit

/-- Demo username for concrete runs. -/
def demo_user : String := "usuario"

/-- Demo password for concrete runs. -/
def demo_pass : String := "clave123"

/-- Demo captcha / recharge code for concrete runs. -/
def demo_code : String := "1234"

/-- Demo transfer amount for concrete runs. -/
def demo_amount : String := "25"

/-- Demo target account for concrete runs. -/
def demo_account : String := "otro.usuario"

/-- Demo new password for concrete runs. -/
def demo_newpass : String := "clave456"

/-- Demo history selector for concrete runs. -/
def demo_action : String := "connections"

/-- Demo token value for concrete runs. -/
def demo_tok : String := "tok-0"

/-- Demo token value returned by the portal login for concrete runs. -/
def demo_tok2 : String := "tok-1"

/-- Demo credit value for concrete runs. -/
def demo_credit : String := "12.34"

/-- Demo remaining-time value for concrete runs. -/
def demo_time : String := "05:00:00"

/-- Demo mail account for concrete runs. -/
def demo_mail : String := "usuario@nauta.cu"

/-- Demo network session identifier for concrete runs. -/
def demo_uuid : String := "uuid-77"

/-- Demo user-portal session as produced by the factory. -/
def upSessFresh : UPSession := { tokens := some demo_tok }

/-- Demo user-portal session as returned by the protocol login. -/
def upSessLogin : UPSession := { tokens := some demo_tok2, credit := some demo_credit }

/-- Demo user-portal session as returned by `get_user_info`. -/
def upSessInfo : UPSession :=
  { tokens := some demo_tok2, credit := some demo_credit, mail_account := some demo_mail }

/-- Demo `UserPortal` oracle on which every protocol call succeeds. -/
def upProtoDemo : UPProto where
  create_session := Except.ok upSessFresh
  get_captcha := fun _ => Except.ok [137, 80, 78, 71]
  login := fun _ _ _ _ => Except.ok upSessLogin
  recharge := fun _ _ => Except.ok ()
  transfer := fun _ _ _ _ => Except.ok ()
  get_user_info := fun _ => Except.ok upSessInfo
  change_password := fun _ _ _ => Except.ok ()
  change_email_password := fun _ _ _ => Except.ok ()
  get_lasts := fun _ _ _ => Except.ok []
  get_connections := fun _ _ _ => Except.ok []
  get_recharges := fun _ _ _ => Except.ok []
  get_transfers := fun _ _ _ => Except.ok []

/-- Demo user-portal client fresh from the constructor (no session). -/
def upcNoSession : UserPortalClient :=
  { username := some demo_user, password := some demo_pass, session := none }

/-- Demo user-portal client holding a logged-in session. -/
def upcLogged : UserPortalClient :=
  { username := some demo_user, password := some demo_pass, session := some upSessLogin }

/-- The client state after a concrete successful `login` run. -/
def upcAfterLogin : UserPortalClient :=
  (UserPortalClient.login upProtoDemo demo_code upcNoSession).2.1

/-- The event trace of a concrete successful `login` run. -/
def trAfterLogin : List UPEvent :=
  (UserPortalClient.login upProtoDemo demo_code upcNoSession).2.2

/-- The client state after a concrete successful `recharge` run. -/
def upcAfterRecharge : UserPortalClient :=
  (UserPortalClient.recharge upProtoDemo demo_code upcLogged).2.1

/-- The event trace of a concrete successful `recharge` run. -/
def trAfterRecharge : List UPEvent :=
  (UserPortalClient.recharge upProtoDemo demo_code upcLogged).2.2

/-- Demo network session as produced by the `Nauta` factory. -/
def nSessDemo : NautaSession := { tokens := some demo_tok, attribute_uuid := some demo_uuid }

/-- Demo `Nauta` oracle on which every protocol call succeeds. -/
def npDemo : NautaProto where
  create_session := Except.ok nSessDemo
  login := fun _ _ _ => Except.ok demo_uuid
  get_user_credit := fun _ _ _ => Except.ok demo_credit
  get_user_time := fun _ _ => Except.ok demo_time
  logout := fun _ _ => Except.ok ()

/-- Demo `Nauta` oracle whose `logout` raises a transport error. -/
def npNetFail : NautaProto :=
  { npDemo with logout := fun _ _ => Except.error PyErr.requestException }

/-- Demo network client fresh from the constructor (no session). -/
def ncNoSession : NautaClient :=
  { user := some demo_user, password := some demo_pass, session := none }

/-- Demo network client holding an active session. -/
def ncLogged : NautaClient :=
  { user := some demo_user, password := some demo_pass, session := some nSessDemo }

/-- The `__dict__.update` merge with a fully-populated session overwrites
every field, so it coincides with full replacement. -/
theorem UPSession.dictUpdate_eq (s r : UPSession) : UPSession.dictUpdate s r = r := rfl

/-- Helper: a successful `UserPortalClient.loginBody` returns the new façade
state itself as its value. -/
theorem up_loginBody_ok (p : UPProto) (captcha_code : String)
    (c : UserPortalClient) (ev : List UPEvent) (r d : UserPortalClient)
    (tr : List UPEvent)
    (hok : UserPortalClient.loginBody p captcha_code c ev = (Except.ok r, d, tr)) :
    r = d := by
  unfold UserPortalClient.loginBody at hok
  split at hok
  · simp at hok
  · split at hok
    · simp at hok
    · simp only [Prod.mk.injEq, Except.ok.injEq] at hok
      obtain ⟨h1, h2, _⟩ := hok
      subst h1
      subst h2
      rfl

/-- Helper: a successful `NautaClient.loginBody` returns the new façade state
itself as its value. -/
theorem n_loginBody_ok (p : NautaProto) (c : NautaClient) (ev : List NEvent)
    (r d : NautaClient) (tr : List NEvent)
    (hok : NautaClient.loginBody p c ev = (Except.ok r, d, tr)) :
    r = d := by
  unfold NautaClient.loginBody at hok
  split at hok
  · simp at hok
  · split at hok
    · simp at hok
    · simp only [Prod.mk.injEq, Except.ok.injEq] at hok
      obtain ⟨h1, h2, _⟩ := hok
      subst h1
      subst h2
      rfl

/-- C1: for every call to `NautaClient.user_credit` or
`NautaClient.remaining_time` made with `self.session = None`, after the call
returns or raises `self.session` is `None` again and the ephemeral session
created inside the call (the factory result for `user_credit`, the bare
`NautaSession()` for `remaining_time`) has been disposed — on every exit
path, whatever the oracle `p` makes the underlying protocol query do. -/
theorem c1_ephemeral_session_disposed (p : NautaProto) (c : NautaClient)
    (h : c.session = none) :
    (NautaClient.user_credit p c).2.1.session = none ∧
    (∀ s, p.create_session = Except.ok s →
      NEvent.disposed s ∈ (NautaClient.user_credit p c).2.2) ∧
    (NautaClient.remaining_time p c).2.1.session = none ∧
    NEvent.disposed NautaSession.new ∈ (NautaClient.remaining_time p c).2.2 := by
  refine ⟨?_, ?_, ?_, ?_⟩
  · cases hp : p.create_session <;>
      simp [NautaClient.user_credit, NautaClient.init_session, finallyDispose, h, hp]
  · intro s hs
    simp [NautaClient.user_credit, NautaClient.init_session, finallyDispose, h, hs]
  · simp [NautaClient.remaining_time, finallyDispose, h]
  · simp [NautaClient.remaining_time, finallyDispose, h]

/-- Witness for C1 on a concrete oracle and a fresh client. -/
theorem c1_witness :
    (NautaClient.user_credit npDemo ncNoSession).2.1.session = none ∧
    NEvent.disposed nSessDemo ∈ (NautaClient.user_credit npDemo ncNoSession).2.2 ∧
    (NautaClient.remaining_time npDemo ncNoSession).2.1.session = none ∧
    NEvent.disposed NautaSession.new ∈ (NautaClient.remaining_time npDemo ncNoSession).2.2 := by
  obtain ⟨h1, h2, h3, h4⟩ := c1_ephemeral_session_disposed npDemo ncNoSession rfl
  exact ⟨h1, h2 nSessDemo rfl, h3, h4⟩

/-- C2: whenever the underlying protocol `logout` raises the transport error
(`RequestException`), the façade `NautaClient.logout` raises the
domain-specific `LogoutException` carrying the remediation message — not the
raw transport error — and the session is not disposed: the façade state is
unchanged and no dispose event occurs. -/
theorem c2_logout_wraps_transport_error (p : NautaProto) (c : NautaClient)
    (h : p.logout c.session c.user = Except.error PyErr.requestException) :
    NautaClient.logout p c =
      (Except.error (PyErr.logoutException logout_message), c,
       [NEvent.protoCall opLogout c.session]) := by
  unfold NautaClient.logout
  rw [h]

/-- Witness for C2 on a concrete failing oracle and a logged-in client. -/
theorem c2_witness :
    NautaClient.logout npNetFail ncLogged =
      (Except.error (PyErr.logoutException logout_message), ncLogged,
       [NEvent.protoCall opLogout (some nSessDemo)]) :=
  c2_logout_wraps_transport_error npNetFail ncLogged rfl

/-- C5: on a `UserPortalClient` with no session, each read-only accessor
(`block_date`, `delete_date`, `account_type`, `service_type`, `credit`,
`time`, `mail_account`) returns `none`; with a session, each returns the
corresponding session field. The accessors are pure functions of the client
state (they take no protocol oracle and return no new state), so they can
neither raise nor create a session. -/
theorem c5_null_accessors (c : UserPortalClient) :
    (c.session = none →
      UserPortalClient.block_date c = none ∧
      UserPortalClient.delete_date c = none ∧
      UserPortalClient.account_type c = none ∧
      UserPortalClient.service_type c = none ∧
      UserPortalClient.credit c = none ∧
      UserPortalClient.time c = none ∧
      UserPortalClient.mail_account c = none) ∧
    (∀ s, c.session = some s →
      UserPortalClient.block_date c = s.block_date ∧
      UserPortalClient.delete_date c = s.delete_date ∧
      UserPortalClient.account_type c = s.account_type ∧
      UserPortalClient.service_type c = s.service_type ∧
      UserPortalClient.credit c = s.credit ∧
      UserPortalClient.time c = s.time ∧
      UserPortalClient.mail_account c = s.mail_account) := by
  constructor
  · intro h
    simp [UserPortalClient.block_date, UserPortalClient.delete_date,
      UserPortalClient.account_type, UserPortalClient.service_type,
      UserPortalClient.credit, UserPortalClient.time,
      UserPortalClient.mail_account, h]
  · intro s h
    simp [UserPortalClient.block_date, UserPortalClient.delete_date,
      UserPortalClient.account_type, UserPortalClient.service_type,
      UserPortalClient.credit, UserPortalClient.time,
      UserPortalClient.mail_account, h]

/-- Witness for C5 on a concrete sessionless client. -/
theorem c5_witness :
    UserPortalClient.block_date upcNoSession = none ∧
    UserPortalClient.delete_date upcNoSession = none ∧
    UserPortalClient.account_type upcNoSession = none ∧
    UserPortalClient.service_type upcNoSession = none ∧
    UserPortalClient.credit upcNoSession = none ∧
    UserPortalClient.time upcNoSession = none ∧
    UserPortalClient.mail_account upcNoSession = none :=
  (c5_null_accessors upcNoSession).1 rfl

/-- C7: `UserPortalClient.__enter__` and `.__exit__` are both no-ops (they
return immediately, change no façade state, call no protocol function),
`NautaClient.__enter__` is a no-op, and `NautaClient.__exit__` is exactly a
call to `logout()`, which always issues the protocol logout call — on every
exit from the scope, for every oracle outcome. -/
theorem c7_scope_hooks (c : UserPortalClient) (p : NautaProto) (n : NautaClient) :
    UserPortalClient.enterHook c = (none, c, []) ∧
    UserPortalClient.exitHook c = (Except.ok (), c, []) ∧
    NautaClient.enterHook n = (none, n, []) ∧
    NautaClient.exitHook p n = NautaClient.logout p n ∧
    NEvent.protoCall opLogout n.session ∈ (NautaClient.exitHook p n).2.2 := by
  refine ⟨rfl, rfl, rfl, rfl, ?_⟩
  unfold NautaClient.exitHook NautaClient.logout
  cases hp : p.logout n.session n.user with
  | error e => cases e <;> simp
  | ok u => cases hn : n.session <;> simp [hn]

/-- C9: the enter hook of both façades returns `None` rather than the client
instance, while `login()` on each façade returns the (new) instance itself on
success; so `with Client(...) as c` binds `c` to `None`. -/
theorem c9_enter_binds_none (c : UserPortalClient) (n : NautaClient)
    (pu : UPProto) (pn : NautaProto) (captcha_code : String) :
    (UserPortalClient.enterHook c).1 = none ∧
    (NautaClient.enterHook n).1 = none ∧
    (∀ r d tr, UserPortalClient.login pu captcha_code c = (Except.ok r, d, tr) → r = d) ∧
    (∀ r d tr, NautaClient.login pn n = (Except.ok r, d, tr) → r = d) := by
  refine ⟨rfl, rfl, ?_, ?_⟩
  · intro r d tr hok
    unfold UserPortalClient.login at hok
    split at hok
    · split at hok
      · simp at hok
      · exact up_loginBody_ok _ _ _ _ _ _ _ hok
    · exact up_loginBody_ok _ _ _ _ _ _ _ hok
  · intro r d tr hok
    unfold NautaClient.login at hok
    split at hok
    · split at hok
      · simp at hok
      · exact n_loginBody_ok _ _ _ _ _ _ hok
    · exact n_loginBody_ok _ _ _ _ _ _ hok

/-- Witness for C9 on concrete clients and oracles with a successful login. -/
theorem c9_witness :
    (UserPortalClient.enterHook upcNoSession).1 = none ∧
    (NautaClient.enterHook ncNoSession).1 = none ∧
    upcAfterLogin = upcAfterLogin := by
  obtain ⟨h1, h2, h3, _⟩ :=
    c9_enter_binds_none upcNoSession ncNoSession upProtoDemo npDemo demo_code
  exact ⟨h1, h2, h3 upcAfterLogin upcAfterLogin trAfterLogin (by rfl)⟩

/-- C10: `NautaClient.__exit__` calls `logout()` unconditionally and
`logout()` has no guard on `self.session`: with no session, the protocol
logout is invoked with `None`, and if that call returns, the façade
dereferences the `None` session (`self.session.dispose()`), raising
`AttributeError` — exiting the scope without an active session is not a safe
no-op. -/
theorem c10_exit_without_session_unsafe (p : NautaProto) (n : NautaClient)
    (h : n.session = none) :
    NEvent.protoCall opLogout none ∈ (NautaClient.exitHook p n).2.2 ∧
    (p.logout none n.user = Except.ok () →
      NautaClient.exitHook p n =
        (Except.error PyErr.attributeError, n, [NEvent.protoCall opLogout none])) := by
  constructor
  · unfold NautaClient.exitHook NautaClient.logout
    rw [h]
    cases hp : p.logout none n.user with
    | error e => cases e <;> simp
    | ok u => simp
  · intro hok
    unfold NautaClient.exitHook NautaClient.logout
    rw [h, hok]

/-- Witness for C10 on a concrete oracle whose logout succeeds and a
sessionless client. -/
theorem c10_witness :
    NautaClient.exitHook npDemo ncNoSession =
      (Except.error PyErr.attributeError, ncNoSession,
       [NEvent.protoCall opLogout none]) := by
  obtain ⟨_, h2⟩ := c10_exit_without_session_unsafe npDemo ncNoSession rfl
  exact h2 rfl

/-- Helper: characterization of a successful `UserPortalClient.loginBody` run
on a client whose session is `s0`. -/
theorem up_loginBody_spec (p : UPProto) (captcha_code : String)
    (c : UserPortalClient) (ev : List UPEvent) (r d : UserPortalClient)
    (tr : List UPEvent) (s0 : UPSession)
    (hc : c.session = some s0)
    (hok : UserPortalClient.loginBody p captcha_code c ev = (Except.ok r, d, tr)) :
    ∃ ret, p.login (some s0) c.username c.password captcha_code = Except.ok ret ∧
      r = d ∧
      d.session = some (UPSession.dictUpdate s0 ret) ∧
      tr = ev ++ [UPEvent.protoCall opLogin (some s0),
                  UPEvent.saved (UPSession.dictUpdate s0 ret)] := by
  unfold UserPortalClient.loginBody at hok
  split at hok
  · simp at hok
  · rename_i s heq
    rw [hc] at heq
    injection heq with heq2
    subst heq2
    split at hok
    · simp at hok
    · rename_i ret hl
      simp only [Prod.mk.injEq, Except.ok.injEq] at hok
      obtain ⟨h1, h2, h3⟩ := hok
      subst h1
      subst h2
      exact ⟨ret, hl, rfl, rfl, h3.symm⟩

/-- C6: a successful `UserPortalClient.login(captcha_code)` leaves a session
in place, has called the protocol login with the stored username, stored
password and the given captcha code, fully overwrites every session
attribute with the returned session (`dictUpdate` of the two equals the
returned session), persists the result, and returns the façade instance
itself; the session it logged in on is the pre-existing one, or the factory
result if none existed. -/
theorem c6_login_contract (p : UPProto) (captcha_code : String)
    (c r d : UserPortalClient) (tr : List UPEvent)
    (hok : UserPortalClient.login p captcha_code c = (Except.ok r, d, tr)) :
    r = d ∧
    ∃ s0 ret, p.login (some s0) c.username c.password captcha_code = Except.ok ret ∧
      d.session = some ret ∧
      UPSession.dictUpdate s0 ret = ret ∧
      UPEvent.saved ret ∈ tr ∧
      (c.session = some s0 ∨ (c.session = none ∧ p.create_session = Except.ok s0)) := by
  unfold UserPortalClient.login at hok
  split at hok
  · rename_i heq
    split at hok
    · simp at hok
    · rename_i u c1 ev hinit
      unfold UserPortalClient.init_session at hinit
      split at hinit
      · simp at hinit
      · rename_i s hp
        simp only [Prod.mk.injEq, Except.ok.injEq] at hinit
        obtain ⟨_, hc1, hev⟩ := hinit
        obtain ⟨ret, hl, hrd, hsess, htr⟩ :=
          up_loginBody_spec p captcha_code c1 ev r d tr s (by rw [← hc1]) hok
        have hu : c1.username = c.username := by rw [← hc1]
        have hpw : c1.password = c.password := by rw [← hc1]
        rw [hu, hpw] at hl
        refine ⟨hrd, s, ret, hl, ?_, UPSession.dictUpdate_eq s ret, ?_, Or.inr ⟨heq, hp⟩⟩
        · rw [hsess, UPSession.dictUpdate_eq]
        · rw [htr, UPSession.dictUpdate_eq]
          simp
  · rename_i s heq
    obtain ⟨ret, hl, hrd, hsess, htr⟩ :=
      up_loginBody_spec p captcha_code c [] r d tr s heq hok
    refine ⟨hrd, s, ret, hl, ?_, UPSession.dictUpdate_eq s ret, ?_, Or.inl heq⟩
    · rw [hsess, UPSession.dictUpdate_eq]
    · rw [htr, UPSession.dictUpdate_eq]
      simp

/-- Witness for C6: on the concrete demo run, login succeeds and the session
afterwards is exactly the session the protocol login returned. -/
theorem c6_witness : upcAfterLogin.session = some upSessLogin := by
  obtain ⟨h1, s0, ret, hl, hsess, hupd, hsav, hcase⟩ :=
    c6_login_contract upProtoDemo demo_code upcNoSession upcAfterLogin upcAfterLogin
      trAfterLogin (by rfl)
  have hret : upSessLogin = ret := by
    have h2 := hl
    simp only [upProtoDemo, Except.ok.injEq] at h2
    exact h2
  rw [hsess, ← hret]

/-- C3: on every successful `UserPortalClient.recharge` or `.transfer`, the
façade performed the mutating protocol call first, then unconditionally
refetched full user info, merged it into the session and persisted before
returning (the trace is exactly mutate, refetch, save); consequently — given
that `get_user_info` is a query determined by the account state, i.e. stable
in its session argument — the session credit after the call equals what a
subsequent `get_user_info` on the post-call session returns. -/
theorem c3_refresh_after_mutate (p : UPProto)
    (hstable : ∀ a b, p.get_user_info a = p.get_user_info b) :
    (∀ code c d tr, UserPortalClient.recharge p code c = (Except.ok (), d, tr) →
       refreshAfterMutate p opRecharge c d tr) ∧
    (∀ amt acct c d tr, UserPortalClient.transfer p amt acct c = (Except.ok (), d, tr) →
       refreshAfterMutate p opTransfer c d tr) := by
  constructor
  · intro code c d tr hok
    unfold UserPortalClient.recharge at hok
    split at hok
    · simp at hok
    · split at hok
      · simp at hok
      · rename_i s heq
        split at hok
        · simp at hok
        · rename_i info hinfo
          simp only [Prod.mk.injEq] at hok
          obtain ⟨_, hd, htr⟩ := hok
          refine ⟨s, info, heq, hinfo, ?_, htr.symm, ?_, rfl⟩
          · rw [← hd]
          · exact (hstable d.session (some s)).trans hinfo
  · intro amt acct c d tr hok
    unfold UserPortalClient.transfer at hok
    split at hok
    · simp at hok
    · split at hok
      · simp at hok
      · rename_i s heq
        split at hok
        · simp at hok
        · rename_i info hinfo
          simp only [Prod.mk.injEq] at hok
          obtain ⟨_, hd, htr⟩ := hok
          refine ⟨s, info, heq, hinfo, ?_, htr.symm, ?_, rfl⟩
          · rw [← hd]
          · exact (hstable d.session (some s)).trans hinfo

/-- Witness for C3: on the concrete demo run, after a successful recharge the
session is exactly the refetched user info. -/
theorem c3_witness : upcAfterRecharge.session = some upSessInfo := by
  obtain ⟨s, info, hs, hinfo, hsess, htr, hsub, hcred⟩ :=
    (c3_refresh_after_mutate upProtoDemo (fun a b => rfl)).1 demo_code upcLogged
      upcAfterRecharge trAfterRecharge (by rfl)
  have h1 : upSessInfo = info := by
    have h2 := hinfo
    simp only [upProtoDemo, Except.ok.injEq] at h2
    exact h2
  have h3 : upSessLogin = s := by
    have h4 := hs
    simp only [upcLogged, Option.some.injEq] at h4
    exact h4
  rw [hsess, ← h1, ← h3]
  rfl

/-- C4 counterexample: on a client with `self.session = None` and an oracle
where every protocol call succeeds, `recharge` does not check for (or
create) a session: it invokes the protocol recharge with `None` as the
session, creates no session, and then crashes with `AttributeError` when it
dereferences `self.session.__dict__` — refuting the claim that `recharge`
checks for an existing session before proceeding and never operates on an
absent session. -/
theorem c4_counterexample :
    (UserPortalClient.recharge upProtoDemo demo_code upcNoSession).2.2 =
      [UPEvent.protoCall opRecharge none] ∧
    (UserPortalClient.recharge upProtoDemo demo_code upcNoSession).2.1.session = none ∧
    (UserPortalClient.recharge upProtoDemo demo_code upcNoSession).1 =
      Except.error PyErr.attributeError :=
  ⟨rfl, rfl, rfl⟩

/-- C4 amended: only `captcha_as_bytes` and `login` check for an existing
session and create one if absent (so their protocol call receives the
factory session); `recharge`, `transfer`, `change_password`,
`change_email_password`, `get_lasts`, `get_connections`, `get_recharges` and
`get_transfers` pass `self.session` to the protocol module as-is, even when
it is `None`. -/
theorem c4_session_guard_amended (p : UPProto) (c : UserPortalClient)
    (h : c.session = none) (code amt acct npw action : String) (large : Nat)
    (y m : Int) :
    (∀ s, p.create_session = Except.ok s →
      UPEvent.protoCall opGetCaptcha (some s) ∈
        (UserPortalClient.captcha_as_bytes p c).2.2) ∧
    (∀ s, p.create_session = Except.ok s →
      UPEvent.protoCall opLogin (some s) ∈
        (UserPortalClient.login p code c).2.2) ∧
    UPEvent.protoCall opRecharge none ∈ (UserPortalClient.recharge p code c).2.2 ∧
    UPEvent.protoCall opTransfer none ∈ (UserPortalClient.transfer p amt acct c).2.2 ∧
    UPEvent.protoCall opChangePassword none ∈
      (UserPortalClient.change_password p npw c).2.2 ∧
    UPEvent.protoCall opChangeEmailPassword none ∈
      (UserPortalClient.change_email_password p npw c).2.2 ∧
    UPEvent.protoCall opGetLasts none ∈ (UserPortalClient.get_lasts p action large c).2.2 ∧
    UPEvent.protoCall opGetConnections none ∈
      (UserPortalClient.get_connections p y m c).2.2 ∧
    UPEvent.protoCall opGetRecharges none ∈
      (UserPortalClient.get_recharges p y m c).2.2 ∧
    UPEvent.protoCall opGetTransfers none ∈
      (UserPortalClient.get_transfers p y m c).2.2 := by
  refine ⟨?_, ?_, ?_, ?_, ?_, ?_, ?_, ?_, ?_, ?_⟩
  · intro s hs
    simp [UserPortalClient.captcha_as_bytes, UserPortalClient.init_session, h, hs]
  · intro s hs
    cases hl : p.login (some s) c.username c.password code <;>
      simp [UserPortalClient.login, UserPortalClient.loginBody,
        UserPortalClient.init_session, h, hs, hl]
  · cases hr : p.recharge none code <;>
      simp [UserPortalClient.recharge, h, hr]
  · cases ht : p.transfer none amt acct c.password <;>
      simp [UserPortalClient.transfer, h, ht]
  · simp [UserPortalClient.change_password, h]
  · simp [UserPortalClient.change_email_password, h]
  · simp [UserPortalClient.get_lasts, h]
  · simp [UserPortalClient.get_connections, h]
  · simp [UserPortalClient.get_recharges, h]
  · simp [UserPortalClient.get_transfers, h]

/-- Witness for the amended C4 on a concrete oracle and sessionless client. -/
theorem c4_amended_witness :
    UPEvent.protoCall opGetCaptcha (some upSessFresh) ∈
      (UserPortalClient.captcha_as_bytes upProtoDemo upcNoSession).2.2 ∧
    UPEvent.protoCall opTransfer none ∈
      (UserPortalClient.transfer upProtoDemo demo_amount demo_account upcNoSession).2.2 := by
  obtain ⟨hc, hl, hr, ht, hp, he, hla, hco, hre, htr⟩ :=
    c4_session_guard_amended upProtoDemo upcNoSession rfl demo_code demo_amount
      demo_account demo_newpass demo_action 5 2023 5
  exact ⟨hc upSessFresh rfl, ht⟩

/-- C8: with no pre-existing session, `user_credit` creates its ephemeral
session through `init_session` — the protocol factory followed by a
`save()` — and queries with the factory session, whereas `remaining_time`
constructs a bare `NautaSession()` directly, with no factory call and no
persistence; whenever the factory succeeds the two runs produce different
traces, so the two session-creation paths are not equivalent. -/
theorem c8_creation_paths_differ (p : NautaProto) (c : NautaClient)
    (h : c.session = none) :
    (∀ s, p.create_session = Except.ok s →
      (NautaClient.user_credit p c).2.2 =
        [NEvent.protoCall opCreate none, NEvent.saved s,
         NEvent.protoCall opGetCredit (some s), NEvent.disposed s]) ∧
    (NautaClient.remaining_time p c).2.2 =
      [NEvent.protoCall opGetTime (some NautaSession.new),
       NEvent.disposed NautaSession.new] ∧
    NEvent.protoCall opCreate none ∉ (NautaClient.remaining_time p c).2.2 ∧
    (∀ s, NEvent.saved s ∉ (NautaClient.remaining_time p c).2.2) ∧
    (∀ s, p.create_session = Except.ok s →
      (NautaClient.user_credit p c).2.2 ≠ (NautaClient.remaining_time p c).2.2) := by
  have htime : (NautaClient.remaining_time p c).2.2 =
      [NEvent.protoCall opGetTime (some NautaSession.new),
       NEvent.disposed NautaSession.new] := by
    simp [NautaClient.remaining_time, finallyDispose, h]
  have hcredit : ∀ s, p.create_session = Except.ok s →
      (NautaClient.user_credit p c).2.2 =
        [NEvent.protoCall opCreate none, NEvent.saved s,
         NEvent.protoCall opGetCredit (some s), NEvent.disposed s] := by
    intro s hs
    simp [NautaClient.user_credit, NautaClient.init_session, finallyDispose, h, hs]
  refine ⟨hcredit, htime, ?_, ?_, ?_⟩
  · rw [htime]
    intro hmem
    simp [NEvent.protoCall.injEq, opCreate, opGetTime] at hmem
  · intro s
    rw [htime]
    simp
  · intro s hs heq
    rw [hcredit s hs, htime] at heq
    have hlen := congrArg List.length heq
    simp at hlen

/-- Witness for C8: on the concrete demo oracle the two traces differ. -/
theorem c8_witness :
    (NautaClient.user_credit npDemo ncNoSession).2.2 ≠
      (NautaClient.remaining_time npDemo ncNoSession).2.2 := by
  obtain ⟨h1, h2, h3, h4, h5⟩ := c8_creation_paths_differ npDemo ncNoSession rfl
  exact h5 nSessDemo rfl
